import Mathlib

/-!
Verification development for the dipcc Diplomacy rules engine
(`src/dipcc/dipcc/cc/game.h`, `src/unnamed/part_000` = power.cc,
`src/unnamed/part_001` = civil-disorder / loc-index tables).

Shallow embedding: C++ enums become inductive types, `std::map` /
`std::vector` literals become association lists / lists, machine-size
arithmetic (`size_t` underflow in `power_str`) is modelled on `Nat`
with explicit reduction mod 2^64, fallible calls (`.at`, `JFAIL`,
C++ exceptions) return `Option` / carry an explicit error component.
-/

namespace Dipcc

/-- The seven Great Powers plus the NONE sentinel.
Modelled from the spec (power.h is not in src/): `Power` is an enum with
sentinel NONE; the comment `// -1 for NONE` in power.cc fixes NONE as the
first enumerator (value 0), the seven real powers following at 1..7. -/
inductive Power where
  | NONE
  | AUSTRIA
  | ENGLAND
  | FRANCE
  | GERMANY
  | ITALY
  | RUSSIA
  | TURKEY
deriving DecidableEq, Repr, Fintype

/-- The C++ enumerator value of a `Power` (`static_cast<size_t>(power)`). -/
def Power.val : Power → Nat
  | .NONE => 0
  | .AUSTRIA => 1
  | .ENGLAND => 2
  | .FRANCE => 3
  | .GERMANY => 4
  | .ITALY => 5
  | .RUSSIA => 6
  | .TURKEY => 7

/-- Modelled from the spec (power.h is not in src/): the array `POWERS`
of the seven real powers, in enum order. -/
def POWERS : List Power :=
  [.AUSTRIA, .ENGLAND, .FRANCE, .GERMANY, .ITALY, .RUSSIA, .TURKEY]

/-- Modelled from the spec (power.h is not in src/): the array
`POWERS_STR` of the canonical names of the seven real powers, aligned
with `POWERS`. -/
def POWERS_STR : List String :=
  ["AUSTRIA", "ENGLAND", "FRANCE", "GERMANY", "ITALY", "RUSSIA", "TURKEY"]

/-- The index `static_cast<size_t>(power) - 1` computed in `power_str`
(power.cc line 16).  `size_t` subtraction wraps mod 2^64, so for
`Power::NONE` (value 0) the index is `2^64 - 1`. -/
def powerStrIdx (p : Power) : Nat :=
  (p.val + (2 ^ 64 - 1)) % 2 ^ 64

/-- `power_str` (power.cc lines 15-17): bounds-checked lookup
`POWERS_STR.at(static_cast<size_t>(power) - 1)`.  `std::vector::at`
throws on an out-of-range index; this is modelled as `none`. -/
def power_str (p : Power) : Option String :=
  POWERS_STR.get? (powerStrIdx p)

/-- `power_from_str` (power.cc lines 19-26): scan `POWERS[0..6]` and
return the first power whose `power_str` equals `s`; if none matches,
`JFAIL` aborts the call, modelled as `none`. -/
def power_from_str (s : String) : Option Power :=
  POWERS.find? (fun p => power_str p == some s)

example : power_from_str "FRANCE" = some .FRANCE := by decide
example : power_from_str "france" = none := by decide
example : power_str .NONE = none := by decide
example : power_str .TURKEY = some "TURKEY" := by decide

/-- The 81 location identifiers of the standard map, including the six
coasted variants (BUL/EC, BUL/SC, SPA/NC, SPA/SC, STP/NC, STP/SC).
Modelled from the spec (loc.h is not in src/); the constructor set is
exactly the key set of `LOC_ALPHA_IDX` in src/unnamed/part_001. -/
inductive Loc where
  | ADR | AEG | ALB | ANK | APU | ARM | BAL | BAR | BEL | BER
  | BLA | BOH | BOT | BRE | BUD | BUL | BUL_EC | BUL_SC | BUR | CLY
  | CON | DEN | EAS | EDI | ENG | FIN | GAL | GAS | GRE | HEL
  | HOL | ION | IRI | KIE | LON | LVN | LVP | LYO | MAO | MAR
  | MOS | MUN | NAF | NAO | NAP | NTH | NWG | NWY | PAR | PIC
  | PIE | POR | PRU | ROM | RUH | RUM | SER | SEV | SIL | SKA
  | SMY | SPA | SPA_NC | SPA_SC | STP | STP_NC | STP_SC | SWE | SYR | TRI
  | TUN | TUS | TYR | TYS | UKR | VEN | VIE | WAL | WAR | WES
  | YOR
deriving DecidableEq, Repr, Fintype

/-- The canonical string name of a `Loc`, with coasted variants written
with a slash (`"BUL/EC"`), as in the order grammar and the Python
`sorted(LOCS)` comment above `LOC_ALPHA_IDX`. -/
def Loc.name : Loc → String
  | .ADR => "ADR" | .AEG => "AEG" | .ALB => "ALB" | .ANK => "ANK"
  | .APU => "APU" | .ARM => "ARM" | .BAL => "BAL" | .BAR => "BAR"
  | .BEL => "BEL" | .BER => "BER" | .BLA => "BLA" | .BOH => "BOH"
  | .BOT => "BOT" | .BRE => "BRE" | .BUD => "BUD" | .BUL => "BUL"
  | .BUL_EC => "BUL/EC" | .BUL_SC => "BUL/SC" | .BUR => "BUR"
  | .CLY => "CLY" | .CON => "CON" | .DEN => "DEN" | .EAS => "EAS"
  | .EDI => "EDI" | .ENG => "ENG" | .FIN => "FIN" | .GAL => "GAL"
  | .GAS => "GAS" | .GRE => "GRE" | .HEL => "HEL" | .HOL => "HOL"
  | .ION => "ION" | .IRI => "IRI" | .KIE => "KIE" | .LON => "LON"
  | .LVN => "LVN" | .LVP => "LVP" | .LYO => "LYO" | .MAO => "MAO"
  | .MAR => "MAR" | .MOS => "MOS" | .MUN => "MUN" | .NAF => "NAF"
  | .NAO => "NAO" | .NAP => "NAP" | .NTH => "NTH" | .NWG => "NWG"
  | .NWY => "NWY" | .PAR => "PAR" | .PIC => "PIC" | .PIE => "PIE"
  | .POR => "POR" | .PRU => "PRU" | .ROM => "ROM" | .RUH => "RUH"
  | .RUM => "RUM" | .SER => "SER" | .SEV => "SEV" | .SIL => "SIL"
  | .SKA => "SKA" | .SMY => "SMY" | .SPA => "SPA"
  | .SPA_NC => "SPA/NC" | .SPA_SC => "SPA/SC" | .STP => "STP"
  | .STP_NC => "STP/NC" | .STP_SC => "STP/SC" | .SWE => "SWE"
  | .SYR => "SYR" | .TRI => "TRI" | .TUN => "TUN" | .TUS => "TUS"
  | .TYR => "TYR" | .TYS => "TYS" | .UKR => "UKR" | .VEN => "VEN"
  | .VIE => "VIE" | .WAL => "WAL" | .WAR => "WAR" | .WES => "WES"
  | .YOR => "YOR"

/-- `LOC_ALPHA_IDX` (src/unnamed/part_001 lines 131-152): the literal
map from `Loc` to its canonical alphabetic index, transcribed pair by
pair in the order written. -/
def LOC_ALPHA_IDX : List (Loc × Nat) :=
  [(Loc.ADR, 0), (Loc.AEG, 1), (Loc.ALB, 2), (Loc.ANK, 3),
   (Loc.APU, 4), (Loc.ARM, 5), (Loc.BAL, 6), (Loc.BAR, 7),
   (Loc.BEL, 8), (Loc.BER, 9), (Loc.BLA, 10), (Loc.BOH, 11),
   (Loc.BOT, 12), (Loc.BRE, 13), (Loc.BUD, 14), (Loc.BUL, 15),
   (Loc.BUL_EC, 16), (Loc.BUL_SC, 17), (Loc.BUR, 18), (Loc.CLY, 19),
   (Loc.CON, 20), (Loc.DEN, 21), (Loc.EAS, 22), (Loc.EDI, 23),
   (Loc.ENG, 24), (Loc.FIN, 25), (Loc.GAL, 26), (Loc.GAS, 27),
   (Loc.GRE, 28), (Loc.HEL, 29), (Loc.HOL, 30), (Loc.ION, 31),
   (Loc.IRI, 32), (Loc.KIE, 33), (Loc.LON, 34), (Loc.LVN, 35),
   (Loc.LVP, 36), (Loc.LYO, 37), (Loc.MAO, 38), (Loc.MAR, 39),
   (Loc.MOS, 40), (Loc.MUN, 41), (Loc.NAF, 42), (Loc.NAO, 43),
   (Loc.NAP, 44), (Loc.NTH, 45), (Loc.NWG, 46), (Loc.NWY, 47),
   (Loc.PAR, 48), (Loc.PIC, 49), (Loc.PIE, 50), (Loc.POR, 51),
   (Loc.PRU, 52), (Loc.ROM, 53), (Loc.RUH, 54), (Loc.RUM, 55),
   (Loc.SER, 56), (Loc.SEV, 57), (Loc.SIL, 58), (Loc.SKA, 59),
   (Loc.SMY, 60), (Loc.SPA, 61), (Loc.SPA_NC, 62), (Loc.SPA_SC, 63),
   (Loc.STP, 64), (Loc.STP_NC, 65), (Loc.STP_SC, 66), (Loc.SWE, 67),
   (Loc.SYR, 68), (Loc.TRI, 69), (Loc.TUN, 70), (Loc.TUS, 71),
   (Loc.TYR, 72), (Loc.TYS, 73), (Loc.UKR, 74), (Loc.VEN, 75),
   (Loc.VIE, 76), (Loc.WAL, 77), (Loc.WAR, 78), (Loc.WES, 79),
   (Loc.YOR, 80)]

example : LOC_ALPHA_IDX.length = 81 := by decide
example : LOC_ALPHA_IDX.map Prod.snd = List.range 81 := by decide


/-- `CIVIL_DISORDER_DISTS_ARMY` (src/unnamed/part_001 lines 19-69): the
literal per-power army distance vectors, indexed by canonical alphabetic
Loc index; the C++ `std::map` is transcribed as the association list of
its seven entries in the order written (which is enum-key order). -/
def CIVIL_DISORDER_DISTS_ARMY : List (Power × List Int) :=
  [
   (Power.AUSTRIA,
    [6, 6, 6, 7, 5, 6, 7, 6, 5, 6, 6, 4, 4, 4, 4, 5, 5, 5, 5, 5,
     4, 3, 3, 4, 3, 5, 5, 4, 4, 4, 4, 4, 5, 4, 4, 4, 4, 3, 2, 3,
     4, 3, 3, 4, 3, 3, 3, 3, 2, 1, 2, 1, 2, 2, 2, 2, 2, 3, 2, 1,
     1, 0, 0, 3, 2, 1, 1, 3, 1, 2, 3, 2, 0, 1, 3, 4, 4, 2, 2, 3,
     2]),
   (Power.ENGLAND,
    [1, 0, 0, 0, 1, 1, 1, 1, 1, 1, 1, 2, 2, 2, 2, 2, 2, 2, 2, 2,
     2, 3, 3, 3, 3, 3, 3, 3, 3, 3, 3, 3, 3, 3, 3, 3, 3, 4, 4, 4,
     4, 4, 4, 3, 4, 4, 4, 4, 5, 5, 5, 5, 5, 5, 5, 5, 5, 5, 5, 6,
     6, 6, 6, 6, 6, 6, 6, 6, 6, 6, 6, 6, 7, 7, 7, 7, 7, 7, 7, 7,
     7]),
   (Power.FRANCE,
    [3, 3, 2, 3, 2, 2, 3, 3, 1, 2, 2, 2, 3, 3, 3, 3, 3, 4, 0, 1,
     1, 1, 2, 4, 3, 4, 4, 4, 4, 1, 0, 2, 2, 1, 1, 1, 2, 0, 2, 3,
     5, 5, 4, 4, 5, 3, 1, 2, 1, 3, 3, 2, 4, 6, 5, 3, 2, 3, 3, 2,
     4, 3, 3, 6, 6, 5, 3, 4, 4, 3, 4, 4, 4, 4, 6, 5, 5, 5, 5, 5,
     5]),
   (Power.GERMANY,
    [3, 3, 3, 4, 2, 4, 4, 3, 3, 4, 4, 2, 1, 1, 1, 3, 2, 4, 3, 3,
     2, 1, 1, 1, 0, 2, 3, 3, 3, 2, 2, 4, 4, 3, 3, 3, 4, 2, 0, 0,
     2, 2, 1, 3, 3, 5, 3, 4, 2, 1, 1, 1, 2, 4, 3, 4, 3, 4, 3, 2,
     2, 2, 2, 5, 4, 3, 3, 5, 3, 3, 5, 4, 3, 3, 5, 6, 6, 4, 4, 5,
     4]),
   (Power.ITALY,
    [6, 6, 5, 5, 5, 5, 5, 5, 4, 4, 4, 4, 4, 4, 4, 6, 5, 6, 4, 3,
     4, 3, 3, 4, 3, 5, 6, 6, 6, 3, 4, 3, 4, 3, 3, 3, 2, 2, 2, 3,
     5, 5, 4, 6, 5, 2, 2, 1, 1, 2, 3, 1, 4, 4, 4, 1, 1, 0, 0, 0,
     3, 2, 1, 4, 4, 3, 1, 2, 2, 1, 2, 2, 2, 2, 4, 3, 3, 3, 3, 3,
     3]),
   (Power.RUSSIA,
    [3, 3, 3, 4, 2, 4, 3, 2, 3, 4, 3, 3, 3, 3, 3, 1, 2, 1, 4, 4,
     4, 3, 3, 2, 3, 2, 1, 0, 0, 4, 4, 5, 5, 5, 5, 5, 5, 4, 2, 2,
     1, 1, 1, 0, 0, 5, 5, 5, 4, 2, 1, 3, 0, 0, 1, 4, 5, 5, 5, 4,
     1, 2, 3, 1, 1, 1, 4, 3, 3, 5, 3, 3, 2, 2, 2, 2, 2, 2, 2, 2,
     2]),
   (Power.TURKEY,
    [7, 7, 7, 7, 6, 7, 7, 6, 6, 6, 6, 7, 6, 7, 7, 5, 6, 5, 6, 5,
     7, 6, 6, 5, 6, 6, 5, 4, 4, 6, 7, 4, 6, 5, 5, 5, 4, 5, 5, 5,
     5, 4, 5, 4, 3, 3, 4, 3, 5, 4, 4, 4, 4, 2, 3, 2, 4, 3, 4, 4,
     3, 4, 3, 1, 1, 2, 3, 1, 3, 3, 1, 2, 3, 2, 0, 0, 1, 1, 1, 0,
     1])]

/-- `CIVIL_DISORDER_DISTS_FLEET` (src/unnamed/part_001 lines 71-128):
the literal per-power fleet distance vectors, transcribed the same
way. -/
def CIVIL_DISORDER_DISTS_FLEET : List (Power × List Int) :=
  [
   (Power.AUSTRIA,
    [8, 8, 7, 7, 7, 7, 7, 7, 6, 6, 6, 7, 8, 8, 8, 8, 8, 8, 6, 5,
     7, -1, -1, 9, 9, 9, 10, -1, 9, 6, -1, 4, 6, -1, 6, 5, 4, 5, -1, 10,
     10, 10, 10, 11, -1, 3, 4, 3, 5, -1, -1, -1, -1, 6, -1, 2, 4, 3, 4, 1,
     -1, 0, 0, 6, 5, 6, 1, 3, 1, 2, 3, 2, 0, -1, 5, 4, 4, -1, 5, 4,
     3]),
   (Power.ENGLAND,
    [1, 0, 0, 0, 1, 1, 1, 1, 1, 1, 1, 2, 2, 2, 2, 2, 2, 2, 2, 2,
     2, -1, -1, 3, 3, 3, 4, -1, 3, 3, -1, 3, 3, -1, 3, 3, 3, 4, -1, 4,
     4, 4, 4, 5, -1, 4, 4, 4, 5, -1, -1, -1, -1, 9, -1, 5, 5, 5, 5, 7,
     -1, -1, 7, 9, 8, 9, 6, 6, 6, 6, 6, 6, -1, -1, 8, 7, 7, -1, 8, 7,
     7]),
   (Power.FRANCE,
    [3, 3, 2, 3, 2, 2, 3, 3, 1, 2, 2, 2, 3, 3, 3, 3, 3, 4, 0, 1,
     1, -1, -1, 4, 4, 4, 5, -1, 4, 1, 0, 2, 2, -1, 2, 1, 2, 0, -1, 5,
     5, 5, 5, 6, -1, 3, 1, 2, 1, -1, -1, -1, -1, 7, -1, 3, 2, 3, 3, 5,
     -1, -1, 5, 7, 6, 7, 4, 4, 4, 4, 4, 4, -1, -1, 6, 5, 5, -1, 6, 5,
     5]),
   (Power.GERMANY,
    [3, 3, 3, 5, 2, 4, 4, 3, 3, 4, 4, 2, 1, 1, 1, 3, 2, 4, 4, 4,
     3, -1, -1, 1, 0, 2, 3, -1, 4, 5, -1, 5, 5, -1, 5, 5, 5, 6, 0, 0,
     2, 2, 1, 3, -1, 6, 6, 6, 7, -1, -1, -1, -1, 11, -1, 7, 7, 7, 7, 9,
     -1, -1, 9, 11, 10, 11, 8, 8, 8, 8, 8, 8, -1, -1, 10, 9, 9, -1, 10, 9,
     9]),
   (Power.ITALY,
    [6, 6, 5, 5, 5, 5, 5, 5, 4, 4, 4, 5, 6, 6, 6, 6, 6, 6, 4, 3,
     5, -1, -1, 7, 7, 7, 8, -1, 7, 4, -1, 3, 4, -1, 4, 3, 2, 3, -1, 8,
     8, 8, 8, 9, -1, 2, 2, 1, 2, -1, -1, -1, -1, 5, -1, 1, 1, 0, 0, 0,
     -1, -1, 1, 5, 4, 5, 1, 2, 2, 1, 2, 2, -1, -1, 4, 3, 3, -1, 4, 3,
     3]),
   (Power.RUSSIA,
    [3, 3, 3, 4, 2, 4, 3, 2, 3, 4, 3, 3, 3, 3, 3, 1, 2, 1, 4, 4,
     4, -1, -1, 2, 3, 2, 1, 0, 0, 5, -1, 5, 5, -1, 5, 5, 5, 6, -1, 3,
     1, 1, 2, 0, 0, 5, 6, 5, 7, -1, -1, -1, 0, 0, -1, 4, 6, 5, 6, 6,
     -1, -1, 6, 1, 1, 1, 5, 3, 5, 5, 4, 4, -1, -1, 2, 3, 4, -1, 2, 2,
     3]),
   (Power.TURKEY,
    [8, 8, 7, 7, 7, 7, 7, 7, 6, 6, 6, 7, 8, 8, 8, 8, 8, 8, 6, 5,
     7, -1, -1, 9, 9, 9, 10, -1, 9, 6, -1, 4, 6, -1, 6, 5, 4, 5, -1, 10,
     10, 10, 10, 11, -1, 3, 4, 3, 5, -1, -1, -1, -1, 2, -1, 2, 4, 3, 4, 4,
     -1, -1, 4, 1, 1, 2, 3, 1, 3, 3, 1, 2, -1, -1, 0, 0, 1, -1, 1, 0,
     1])]

example : (CIVIL_DISORDER_DISTS_ARMY.map Prod.fst) = POWERS := by decide
example : CIVIL_DISORDER_DISTS_ARMY.all (fun e => e.2.length == 81) = true := by decide
example : CIVIL_DISORDER_DISTS_FLEET.all (fun e => e.2.length == 81) = true := by decide

/-- Seasons of the turn cycle (spec section 2: Phase). -/
inductive Season where
  | SPRING
  | FALL
  | WINTER
deriving DecidableEq, Repr

/-- Phase kinds (spec section 2: Phase). -/
inductive PhaseKind where
  | MOVEMENT
  | RETREAT
  | ADJUSTMENT
deriving DecidableEq, Repr

/-- A `Phase` value (phase.h is not in src/; modelled from the spec:
`(season, year, kind)`). -/
structure PhaseM where
  season : Season
  year : Int
  kind : PhaseKind
deriving DecidableEq, Repr

/-- Unit types (unit.h is not in src/; modelled from the spec). -/
inductive UnitType where
  | ARMY
  | FLEET
deriving DecidableEq, Repr

/-- A unit: `(type, loc)` (unit.h is not in src/; modelled from the
spec). -/
structure UnitM where
  utype : UnitType
  loc : Loc
deriving DecidableEq, Repr

/-- A press message (message.h is not in src/; modelled from the spec's
`{sender, recipient, body}` with its `time_sent` timestamp). -/
structure MessageM where
  sender : Power
  recipient : Power
  body : String
  time_sent : Nat
deriving DecidableEq, Repr

/-- A `GameState` snapshot (game_state.h is not in src/; modelled from
the spec's state object: phase plus the per-power `units`, `retreats`,
`centers`, `homes`, `influence`, `civil_disorder` and `builds` maps,
with C++ ordered maps embedded as association lists). -/
structure GameStateM where
  phase : PhaseM
  units : List (Power × List UnitM)
  retreats : List (Power × List (UnitM × List Loc))
  centers : List (Power × List Loc)
  homes : List (Power × List Loc)
  influence : List (Power × List Loc)
  civil_disorder : List (Power × Bool)
  builds : List (Power × (Int × List Loc))
deriving DecidableEq, Repr

/-- The canonical alphabetic index of a `Loc`, read from
`LOC_ALPHA_IDX` (0 as an impossible fallback: every `Loc` is a key). -/
def locIdx (l : Loc) : Nat :=
  ((LOC_ALPHA_IDX.find? (fun e => e.1 == l)).map Prod.snd).getD 0

/-- Numeric code of a `UnitType` for hashing. -/
def UnitType.code : UnitType → Nat
  | .ARMY => 0
  | .FLEET => 1

/-- Insert into a sorted `List Nat` (helper for the order-independent
board hash). -/
def insertSorted (x : Nat) : List Nat → List Nat
  | [] => [x]
  | y :: ys => if x ≤ y then x :: y :: ys else y :: insertSorted x ys

/-- Insertion sort on `List Nat`. -/
def sortNat (xs : List Nat) : List Nat :=
  xs.foldr insertSorted []

/-- One 64-bit hash-combination step (multiply-add mod 2^64). -/
def hashCombine (h v : Nat) : Nat :=
  (h * 1000003 + v) % 2 ^ 64

/-- Numeric code of a season for hashing. -/
def Season.code : Season → Nat
  | .SPRING => 0
  | .FALL => 1
  | .WINTER => 2

/-- Numeric code of a phase kind for hashing. -/
def PhaseKind.code : PhaseKind → Nat
  | .MOVEMENT => 0
  | .RETREAT => 1
  | .ADJUSTMENT => 2

/-- Numeric code of a phase for hashing. -/
def PhaseM.code (p : PhaseM) : Nat :=
  (p.year.toNat * 4 + p.season.code) * 4 + p.kind.code

/-- The encoded `(loc_idx, unit_type, owner)` triples of a state,
sorted so the hash is insertion-order independent. -/
def unitTriples (s : GameStateM) : List Nat :=
  sortNat (s.units.flatMap (fun e =>
    e.2.map (fun u => (locIdx u.loc * 2 + u.utype.code) * 8 + e.1.val)))

/-- The encoded `(sc_idx, owner)` pairs of a state, sorted. -/
def scPairs (s : GameStateM) : List Nat :=
  sortNat (s.centers.flatMap (fun e => e.2.map (fun c => locIdx c * 8 + e.1.val)))

/-- `GameState::compute_board_hash`. Modelled from the spec
(game_state.cc is not in src/): a stable 64-bit hash over the phase, the
sorted `(loc_idx, unit_type, owner)` triples and the sorted
`(sc_idx, owner)` pairs. -/
def compute_board_hash (s : GameStateM) : Nat :=
  (unitTriples s ++ scPairs s).foldl hashCombine (PhaseM.code s.phase)

/-- The `Game` aggregate, mirroring the private members of `class Game`
(game.h lines 140-149) with `std::map` embedded as association lists
and `Order` values carried in their canonical string form (order.h is
not in src/). -/
structure GameModel where
  game_id : String
  state_ : GameStateM
  staged_orders_ : List (Power × List String)
  state_history_ : List (PhaseM × GameStateM)
  order_history_ : List (PhaseM × List (Power × List String))
  logs_ : List (PhaseM × List String)
  message_history_ : List (PhaseM × List (Nat × MessageM))
  rules_ : List String
  draw_on_stalemate_years_ : Int
  exception_on_convoy_paradox_ : Bool
deriving DecidableEq, Repr

/-- Modelled from the spec: the standard-map 1901 starting position
(map data is not in src/): the classical 22 starting units. -/
def initialUnits : List (Power × List UnitM) :=
  [(Power.AUSTRIA, [⟨UnitType.ARMY, Loc.VIE⟩, ⟨UnitType.ARMY, Loc.BUD⟩,
                    ⟨UnitType.FLEET, Loc.TRI⟩]),
   (Power.ENGLAND, [⟨UnitType.FLEET, Loc.LON⟩, ⟨UnitType.FLEET, Loc.EDI⟩,
                    ⟨UnitType.ARMY, Loc.LVP⟩]),
   (Power.FRANCE, [⟨UnitType.ARMY, Loc.PAR⟩, ⟨UnitType.ARMY, Loc.MAR⟩,
                   ⟨UnitType.FLEET, Loc.BRE⟩]),
   (Power.GERMANY, [⟨UnitType.ARMY, Loc.BER⟩, ⟨UnitType.ARMY, Loc.MUN⟩,
                    ⟨UnitType.FLEET, Loc.KIE⟩]),
   (Power.ITALY, [⟨UnitType.ARMY, Loc.ROM⟩, ⟨UnitType.ARMY, Loc.VEN⟩,
                  ⟨UnitType.FLEET, Loc.NAP⟩]),
   (Power.RUSSIA, [⟨UnitType.ARMY, Loc.MOS⟩, ⟨UnitType.ARMY, Loc.WAR⟩,
                   ⟨UnitType.FLEET, Loc.SEV⟩, ⟨UnitType.FLEET, Loc.STP_SC⟩]),
   (Power.TURKEY, [⟨UnitType.ARMY, Loc.CON⟩, ⟨UnitType.ARMY, Loc.SMY⟩,
                   ⟨UnitType.FLEET, Loc.ANK⟩])]

/-- Modelled from the spec: the home supply centers of each power on
the standard map (map data is not in src/). -/
def initialCenters : List (Power × List Loc) :=
  [(Power.AUSTRIA, [Loc.BUD, Loc.TRI, Loc.VIE]),
   (Power.ENGLAND, [Loc.EDI, Loc.LON, Loc.LVP]),
   (Power.FRANCE, [Loc.BRE, Loc.MAR, Loc.PAR]),
   (Power.GERMANY, [Loc.BER, Loc.KIE, Loc.MUN]),
   (Power.ITALY, [Loc.NAP, Loc.ROM, Loc.VEN]),
   (Power.RUSSIA, [Loc.MOS, Loc.SEV, Loc.STP, Loc.WAR]),
   (Power.TURKEY, [Loc.ANK, Loc.CON, Loc.SMY])]

/-- Modelled from the spec: the initial `GameState`, phase
SPRING 1901 MOVEMENT with the standard starting position. -/
def initialState : GameStateM :=
  { phase := ⟨Season.SPRING, 1901, PhaseKind.MOVEMENT⟩
    units := initialUnits
    retreats := POWERS.map (fun p => (p, []))
    centers := initialCenters
    homes := initialCenters
    influence := initialCenters
    civil_disorder := POWERS.map (fun p => (p, false))
    builds := POWERS.map (fun p => (p, (0, []))) }

/-- The constructor `Game::Game(int draw_on_stalemate_years = -1)`
(game.h line 39).  Modelled from the spec (game.cc is not in src/):
installs the initial state; the member default values of game.h lines
147-149 give `rules_`, `draw_on_stalemate_years_` (overwritten by the
argument) and `exception_on_convoy_paradox_ = false`. -/
def GameModel.init (draw_on_stalemate_years : Int) : GameModel :=
  { game_id := ""
    state_ := initialState
    staged_orders_ := []
    state_history_ := []
    order_history_ := []
    logs_ := []
    message_history_ := []
    rules_ := ["NO_PRESS", "POWER_CHOICE"]
    draw_on_stalemate_years_ := draw_on_stalemate_years
    exception_on_convoy_paradox_ := false }

/-- `Game()` with the default argument of game.h line 39
(`draw_on_stalemate_years = -1`). -/
def GameModel.mkDefault : GameModel :=
  GameModel.init (-1)

/-- `Game::map_name` (game.h line 129): `return "standard";`. -/
def GameModel.map_name (_ : GameModel) : String :=
  "standard"

/-- The number of supply centers a power owns in a state. -/
def centerCount (s : GameStateM) (p : Power) : Nat :=
  ((s.centers.find? (fun e => e.1 == p)).map (fun e => e.2.length)).getD 0

/-- The `centers` maps of the archived adjustment-phase states, in
history order (helper for the stalemate-draw test). -/
def adjCentersHistory (g : GameModel) : List (List (Power × List Loc)) :=
  (g.state_history_.filter (fun e => e.1.kind == PhaseKind.ADJUSTMENT)).map
    (fun e => e.2.centers)

/-- The stalemate-draw test.  Modelled from the spec (game.cc is not in
src/): `draw_on_stalemate_years > 0` and supply-center ownership
unchanged over that many consecutive archived adjustment phases. -/
def stalemateDraw (g : GameModel) : Bool :=
  0 < g.draw_on_stalemate_years_ &&
    (let n := g.draw_on_stalemate_years_.toNat
     let adj := adjCentersHistory g
     decide (n ≤ adj.length) &&
       (adj.drop (adj.length - n)).all (fun c => c == g.state_.centers))

/-- `Game::is_game_done` (game.h line 53).  Modelled from the spec
(game.cc is not in src/), invariant 5: done iff some power owns >= 18
supply centers, or the stalemate-years draw triggered, or at most one
power with supply centers remains. -/
def is_game_done (g : GameModel) : Bool :=
  POWERS.any (fun p => 18 ≤ centerCount g.state_ p) ||
    stalemateDraw g ||
    (POWERS.filter (fun p => 0 < centerCount g.state_ p)).length ≤ 1

/-- The error kinds of spec section 7 that the modelled API can
signal. -/
inductive GameError where
  | IllegalStateError
  | ParadoxError
  | LookupError
  | ParseError
  | CorruptSnapshotError
deriving DecidableEq, Repr

/-- The phase sequencer (phase.cc / game.cc are not in src/; modelled
from the spec section 4.5 cycle SxM, SxR, FxM, FxR, WxA, next year;
the elision of empty retreat/adjustment phases depends on solver
outcomes and is not modelled — no claim below depends on it). -/
def phase_succ (p : PhaseM) : PhaseM :=
  match p.season, p.kind with
  | Season.SPRING, PhaseKind.MOVEMENT => ⟨Season.SPRING, p.year, PhaseKind.RETREAT⟩
  | Season.SPRING, _ => ⟨Season.FALL, p.year, PhaseKind.MOVEMENT⟩
  | Season.FALL, PhaseKind.MOVEMENT => ⟨Season.FALL, p.year, PhaseKind.RETREAT⟩
  | Season.FALL, _ => ⟨Season.WINTER, p.year, PhaseKind.ADJUSTMENT⟩
  | Season.WINTER, _ => ⟨Season.SPRING, p.year + 1, PhaseKind.MOVEMENT⟩

/-- The phase-appropriate solver producing the successor state.
Modelled from the spec (the adjudicator lives in game.cc / adjudicator
files not in src/): the successor state steps the phase; the board
resolution itself is outside every claim settled in this file and is
abstracted as keeping the board. -/
def resolveState (s : GameStateM) : GameStateM :=
  { s with phase := phase_succ s.phase }

/-- `Game::process` (game.h line 45).  Modelled from the spec (game.cc
is not in src/): refuses to advance when `is_game_done()` — the game is
returned unchanged together with `IllegalStateError` — otherwise
archives the current state and staged orders under the current phase
key, clears the staged orders and installs the solver's successor
state.  The returned pair is (game after the call, raised error). -/
def process (g : GameModel) : GameModel × Option GameError :=
  if is_game_done g then
    (g, some GameError.IllegalStateError)
  else
    ({ g with
        state_ := resolveState g.state_
        staged_orders_ := []
        state_history_ := g.state_history_ ++ [(g.state_.phase, g.state_)]
        order_history_ := g.order_history_ ++ [(g.state_.phase, g.staged_orders_)] },
     none)

/-- The JSON snapshot.  Modelled from the spec (the codec lives in
game.cc, not in src/): an object with keys `id`, `map` (`"standard"`),
`rules`, `phase`, `state`, `state_history`, `order_history`, `messages`
and `logs`, embedded as a typed record (one field per key). -/
structure Snapshot where
  id : String
  map : String
  rules : List String
  phase : PhaseM
  state : GameStateM
  state_history : List (PhaseM × GameStateM)
  order_history : List (PhaseM × List (Power × List String))
  messages : List (PhaseM × List (Nat × MessageM))
  logs : List (PhaseM × List String)
deriving DecidableEq, Repr

/-- `Game::to_json` (game.h line 62).  Modelled from the spec: serialize
the game into the snapshot object (the configuration knobs and the
staged orders are not part of the snapshot's keys). -/
def to_json (g : GameModel) : Snapshot :=
  { id := g.game_id
    map := "standard"
    rules := g.rules_
    phase := g.state_.phase
    state := g.state_
    state_history := g.state_history_
    order_history := g.order_history_
    messages := g.message_history_
    logs := g.logs_ }

/-- `Game::from_json` (game.h line 117, delegating to the
`Game(const std::string&)` constructor of game.h line 40).  Modelled
from the spec: rebuild the game from the snapshot;  fields absent from
the snapshot (staged orders, configuration knobs) take their
constructor defaults. -/
def from_json (s : Snapshot) : GameModel :=
  { game_id := s.id
    state_ := s.state
    staged_orders_ := []
    state_history_ := s.state_history
    order_history_ := s.order_history
    logs_ := s.logs
    message_history_ := s.messages
    rules_ := s.rules
    draw_on_stalemate_years_ := -1
    exception_on_convoy_paradox_ := false }

/-- `Game::set_orders` (game.h lines 42-43).  Modelled from the spec
(game.cc is not in src/): replaces the staged orders of the named power
for the current phase; an unknown power name is a LookupError and the
game is left unchanged. -/
def set_orders (g : GameModel) (power : String) (orders : List String) :
    GameModel :=
  match power_from_str power with
  | none => g
  | some p =>
      { g with
          staged_orders_ :=
            g.staged_orders_.filter (fun e => e.1 != p) ++ [(p, orders)] }

/-- `Game::add_message` (game.h lines 98-100).  Modelled from the spec:
record the message under the current phase keyed by its timestamp. -/
def add_message (g : GameModel) (sender recipient : Power) (body : String)
    (time_sent : Nat) : GameModel :=
  let ph := g.state_.phase
  let entry : Nat × MessageM := (time_sent, ⟨sender, recipient, body, time_sent⟩)
  { g with
      message_history_ :=
        match g.message_history_.find? (fun e => e.1 == ph) with
        | none => g.message_history_ ++ [(ph, [entry])]
        | some _ =>
            g.message_history_.map (fun e =>
              if e.1 == ph then (e.1, e.2 ++ [entry]) else e) }

/-- `Game::add_log` (game.h line 115).  Modelled from the spec: append
a log line under the current phase. -/
def add_log (g : GameModel) (body : String) : GameModel :=
  let ph := g.state_.phase
  { g with
      logs_ :=
        match g.logs_.find? (fun e => e.1 == ph) with
        | none => g.logs_ ++ [(ph, [body])]
        | some _ =>
            g.logs_.map (fun e =>
              if e.1 == ph then (e.1, e.2 ++ [body]) else e) }

/-- `Game::rollback_messages_to_timestamp` (game.h line 66).  Modelled
from the spec: remove every message with `time_sent > t` across all
phases. -/
def rollback_messages_to_timestamp (g : GameModel) (t : Nat) : GameModel :=
  { g with
      message_history_ :=
        g.message_history_.map (fun e => (e.1, e.2.filter (fun m => m.1 ≤ t))) }

/-- `Game::set_draw_on_stalemate_years` (game.h lines 88-90). -/
def set_draw_on_stalemate_years (g : GameModel) (year : Int) : GameModel :=
  { g with draw_on_stalemate_years_ := year }

/-- `Game::set_exception_on_convoy_paradox` (game.h lines 84-86): the
only mutator of `exception_on_convoy_paradox_`, and it writes `true`. -/
def set_exception_on_convoy_paradox (g : GameModel) : GameModel :=
  { g with exception_on_convoy_paradox_ := true }

/-- The public mutating operations of `class Game` (game.h): the
lifecycle of a game is a fold of these over an initial game.  The
rollback copies (`rolled_back_to_phase_*`) return fresh games and do
not mutate the receiver, so they are not steps of a game's own
lifetime. -/
inductive GameOp where
  | setOrdersOp (power : String) (orders : List String)
  | processOp
  | setExceptionOnConvoyParadoxOp
  | setDrawOnStalemateYearsOp (year : Int)
  | addMessageOp (sender recipient : Power) (body : String) (time_sent : Nat)
  | addLogOp (body : String)
  | rollbackMessagesOp (t : Nat)
deriving DecidableEq, Repr

/-- Apply one public operation to a game (a `process` call that raises
leaves the game as it was). -/
def applyOp (g : GameModel) : GameOp → GameModel
  | GameOp.setOrdersOp pw os => set_orders g pw os
  | GameOp.processOp => (process g).1
  | GameOp.setExceptionOnConvoyParadoxOp => set_exception_on_convoy_paradox g
  | GameOp.setDrawOnStalemateYearsOp y => set_draw_on_stalemate_years g y
  | GameOp.addMessageOp s r b t => add_message g s r b t
  | GameOp.addLogOp b => add_log g b
  | GameOp.rollbackMessagesOp t => rollback_messages_to_timestamp g t



/-- Strict lexicographic comparison of character lists by character
code (the alphabetical order used by the Python `sorted(LOCS)` that
generated `LOC_ALPHA_IDX`). -/
def charListLtB : List Char → List Char → Bool
  | [], [] => false
  | [], _ :: _ => true
  | _ :: _, [] => false
  | a :: as, b :: bs =>
      if a.toNat < b.toNat then true
      else if a.toNat = b.toNat then charListLtB as bs else false

/-- Strict lexicographic order on strings, by character code. -/
def strLtB (a b : String) : Bool :=
  charListLtB a.toList b.toList

/-- Is a list of strings strictly sorted under `strLtB`? -/
def strSortedB : List String → Bool
  | [] => true
  | [_] => true
  | a :: b :: rest => strLtB a b && strSortedB (b :: rest)

/-- A finished game for concrete evaluation: Austria owns 18 supply
centers, so spec invariant 5(a) makes `is_game_done` true. -/
def doneGame : GameModel :=
  { GameModel.mkDefault with
      state_ := { initialState with
        centers := [(Power.AUSTRIA,
          [Loc.VIE, Loc.BUD, Loc.TRI, Loc.EDI, Loc.LON, Loc.LVP, Loc.BRE,
           Loc.MAR, Loc.PAR, Loc.BER, Loc.KIE, Loc.MUN, Loc.NAP, Loc.ROM,
           Loc.VEN, Loc.MOS, Loc.SEV, Loc.WAR])] } }

/-- A fresh game on which `set_exception_on_convoy_paradox()` has been
called. -/
def flagGame : GameModel :=
  set_exception_on_convoy_paradox GameModel.mkDefault

/-- C1: for every Game `g`, `from_json(to_json(g))` equals `g` in the
sense the claim spells out: identical phase, identical order history,
and an identical board hash at every historical phase. -/
theorem from_json_to_json_round_trip (g : GameModel) :
    (from_json (to_json g)).state_.phase = g.state_.phase ∧
    (from_json (to_json g)).order_history_ = g.order_history_ ∧
    (from_json (to_json g)).state_history_.map
        (fun e => (e.1, compute_board_hash e.2)) =
      g.state_history_.map (fun e => (e.1, compute_board_hash e.2)) :=
  ⟨rfl, rfl, rfl⟩

/-- C2: on a finished game, `process()` raises IllegalStateError and
leaves the game — state, phase, histories and staged orders — entirely
unchanged. -/
theorem process_refuses_when_done (g : GameModel)
    (h : is_game_done g = true) :
    process g = (g, some GameError.IllegalStateError) := by
  simp [process, h]

/-- Witness for C2: a concrete finished game (Austria at 18 supply
centers) on which `process` raises and changes nothing. -/
theorem process_refuses_when_done_witness :
    is_game_done doneGame = true ∧
      process doneGame = (doneGame, some GameError.IllegalStateError) :=
  ⟨by decide, process_refuses_when_done doneGame (by decide)⟩

/-- C3: the civil-disorder tables are complete and well-shaped: each
holds exactly one entry per Great Power (keys are exactly `POWERS`),
every one of the fourteen vectors has length exactly 81 (one value per
canonical alphabetic Loc index 0-80), and every value is at least -1
(so -1 is the only sentinel). -/
theorem civil_disorder_tables_shape :
    CIVIL_DISORDER_DISTS_ARMY.map Prod.fst = POWERS ∧
    CIVIL_DISORDER_DISTS_FLEET.map Prod.fst = POWERS ∧
    CIVIL_DISORDER_DISTS_ARMY.all (fun e => e.2.length == 81) = true ∧
    CIVIL_DISORDER_DISTS_FLEET.all (fun e => e.2.length == 81) = true ∧
    CIVIL_DISORDER_DISTS_ARMY.all (fun e => e.2.all (fun v => -1 ≤ v)) = true ∧
    CIVIL_DISORDER_DISTS_FLEET.all (fun e => e.2.all (fun v => -1 ≤ v)) = true := by
  decide

/-- C4: `LOC_ALPHA_IDX` has exactly 81 entries, assigns the indices
0..80 exactly once and in listed order, keys every `Loc` exactly once
(all 81 identifiers, including the six coasted variants), and lists the
location names in strictly increasing alphabetical order (strict
lexicographic order by character code). -/
theorem loc_alpha_idx_canonical :
    LOC_ALPHA_IDX.length = 81 ∧
    LOC_ALPHA_IDX.map Prod.snd = List.range 81 ∧
    (LOC_ALPHA_IDX.map Prod.fst).Nodup ∧
    (∀ l : Loc, (LOC_ALPHA_IDX.find? (fun e => e.1 == l)).isSome = true) ∧
    ((Loc.BUL_EC, 16) ∈ LOC_ALPHA_IDX ∧ (Loc.BUL_SC, 17) ∈ LOC_ALPHA_IDX ∧
     (Loc.SPA_NC, 62) ∈ LOC_ALPHA_IDX ∧ (Loc.SPA_SC, 63) ∈ LOC_ALPHA_IDX ∧
     (Loc.STP_NC, 65) ∈ LOC_ALPHA_IDX ∧ (Loc.STP_SC, 66) ∈ LOC_ALPHA_IDX) ∧
    strSortedB (LOC_ALPHA_IDX.map (fun e => Loc.name e.1)) = true := by
  decide

/-- C5: a Game constructed with no arguments has
`draw_on_stalemate_years = -1` and `exception_on_convoy_paradox =
false`; a Game constructed with an explicit `draw_on_stalemate_years`
stores that value (and still defaults the paradox flag to false). -/
theorem game_ctor_defaults :
    GameModel.mkDefault.draw_on_stalemate_years_ = -1 ∧
    GameModel.mkDefault.exception_on_convoy_paradox_ = false ∧
    (∀ y : Int, (GameModel.init y).draw_on_stalemate_years_ = y) ∧
    (∀ y : Int, (GameModel.init y).exception_on_convoy_paradox_ = false) :=
  ⟨rfl, rfl, fun _ => rfl, fun _ => rfl⟩

/-- C6: `power_from_str(s)` returns exactly the power whose canonical
name is `s` when `s` names one of the seven Great Powers, and aborts
(returns no Power) on every other string. -/
theorem power_from_str_lookup (s : String) (p : Power) :
    (power_from_str s = some p ↔ p ∈ POWERS ∧ power_str p = some s) ∧
    (power_from_str s = none ↔ s ∉ POWERS_STR) := by
  by_cases hs : s ∈ POWERS_STR
  · have h7 : s = "AUSTRIA" ∨ s = "ENGLAND" ∨ s = "FRANCE" ∨ s = "GERMANY" ∨
        s = "ITALY" ∨ s = "RUSSIA" ∨ s = "TURKEY" := by
      simpa [POWERS_STR] using hs
    rcases h7 with h | h | h | h | h | h | h <;> subst h <;> cases p <;> decide
  · have hnone : power_from_str s = none := by
      apply List.find?_eq_none.mpr
      intro q _ hbeq
      have heq : power_str q = some s := eq_of_beq hbeq
      exact absurd (List.get?_mem (show POWERS_STR.get? (powerStrIdx q) = some s
        from heq)) hs
    refine ⟨⟨fun hsome => ?_, fun hmem => ?_⟩, by simp [hnone, hs]⟩
    · rw [hnone] at hsome
      cases hsome
    · exact absurd (List.get?_mem (show POWERS_STR.get? (powerStrIdx p) = some s
        from hmem.2)) hs

/-- C7: `map_name()` returns exactly `"standard"` on every Game. -/
theorem map_name_standard (g : GameModel) : g.map_name = "standard" :=
  rfl

/-- C8: converting any of the seven real powers to its canonical name
and back is the identity. -/
theorem power_str_round_trip (p : Power) (h : p ∈ POWERS) :
    (power_str p).bind power_from_str = some p := by
  cases p
  case NONE => exact absurd h (by decide)
  all_goals decide

/-- Witness for C8 at `Power.FRANCE`. -/
theorem power_str_round_trip_witness :
    Power.FRANCE ∈ POWERS ∧
      (power_str Power.FRANCE).bind power_from_str = some Power.FRANCE :=
  ⟨by decide, power_str_round_trip Power.FRANCE (by decide)⟩

/-- C9: for a real power the index `static_cast<size_t>(power) - 1`
is in bounds of `POWERS_STR` and the bounds-checked lookup succeeds;
for `Power::NONE` the index wraps to 2^64 - 1, past the table, and the
lookup fails rather than returning a name. -/
theorem power_str_index_safety (p : Power) (h : p ≠ Power.NONE) :
    powerStrIdx p < POWERS_STR.length ∧ (power_str p).isSome = true ∧
    POWERS_STR.length ≤ powerStrIdx Power.NONE ∧
    powerStrIdx Power.NONE = 2 ^ 64 - 1 ∧ power_str Power.NONE = none := by
  cases p
  case NONE => exact absurd rfl h
  all_goals decide

/-- Witness for C9 at `Power.ITALY`. -/
theorem power_str_index_safety_witness :
    Power.ITALY ≠ Power.NONE ∧
      (powerStrIdx Power.ITALY < POWERS_STR.length ∧
       (power_str Power.ITALY).isSome = true ∧
       POWERS_STR.length ≤ powerStrIdx Power.NONE ∧
       powerStrIdx Power.NONE = 2 ^ 64 - 1 ∧ power_str Power.NONE = none) :=
  ⟨by decide, power_str_index_safety Power.ITALY (by decide)⟩

/-- Any single public operation keeps the paradox flag set once it is
set (helper for the monotonicity claim). -/
theorem applyOp_keeps_exception_flag (g : GameModel) (op : GameOp)
    (h : g.exception_on_convoy_paradox_ = true) :
    (applyOp g op).exception_on_convoy_paradox_ = true := by
  cases op with
  | setOrdersOp pw os =>
      simp only [applyOp, set_orders]
      rcases hpf : power_from_str pw with _ | p <;> exact h
  | processOp =>
      simp only [applyOp, process]
      split <;> exact h
  | setExceptionOnConvoyParadoxOp => rfl
  | setDrawOnStalemateYearsOp y => exact h
  | addMessageOp s r b t => exact h
  | addLogOp b => exact h
  | rollbackMessagesOp t => exact h

/-- C10: the paradox flag is monotone over a Game lifetime: it starts
false, the only mutator sets it to true, and no sequence of public
operations ever resets it once set. -/
theorem exception_flag_monotone :
    GameModel.mkDefault.exception_on_convoy_paradox_ = false ∧
    (∀ g : GameModel,
      (set_exception_on_convoy_paradox g).exception_on_convoy_paradox_ = true) ∧
    ∀ (g : GameModel) (ops : List GameOp),
      g.exception_on_convoy_paradox_ = true →
      (ops.foldl applyOp g).exception_on_convoy_paradox_ = true := by
  refine ⟨rfl, fun _ => rfl, fun g ops => ?_⟩
  induction ops generalizing g with
  | nil => exact fun h => h
  | cons op rest ih =>
      intro h
      simpa [List.foldl] using ih (applyOp g op)
        (applyOp_keeps_exception_flag g op h)

/-- Witness for C10: on a game with the flag set, a concrete sequence
of public operations leaves the flag set. -/
theorem exception_flag_monotone_witness :
    flagGame.exception_on_convoy_paradox_ = true ∧
      (([GameOp.setOrdersOp "FRANCE" ["A PAR - BUR"], GameOp.processOp,
         GameOp.addLogOp "adjudicated"].foldl applyOp
          flagGame).exception_on_convoy_paradox_ = true) :=
  ⟨rfl, exception_flag_monotone.2.2 flagGame _ rfl⟩

end Dipcc
